import Mathlib

/-!
# Verification of the gotemplate service core

Shallow embedding of the gotemplate repository: the user/product data model
(`internal/models`), the GORM-backed repositories
(`internal/repository/user_repository.go`, `product_repository.go`),
the JWT manager (`pkg/auth`), and the service layer
(`internal/service/user_service.go`, `product_service.go`).

Modelling conventions:
- Go `uint` identifiers become `Nat`; `float64` prices become `ℚ` (the code
  never performs arithmetic on a price — it only stores, copies and compares
  against zero — so no floating-point rounding can occur on any modelled path).
- `time.Time` becomes `Int` (an instant on an abstract clock); `time.Duration`
  becomes `Int`.
- The database is a value of type `DB`, passed and returned explicitly.
  Connection-level I/O faults are out of the model: every modelled run is
  against a healthy database, so a raw `SELECT ... Scan` never yields a driver
  error. GORM `Raw(...).Scan(&dst)` semantics on a healthy connection: with a
  matching row the struct is filled and `result.Error` is nil; with zero rows
  the struct keeps its zero value, `RowsAffected` is 0 and `result.Error` is
  still nil (`Scan` never produces `gorm.ErrRecordNotFound`; only
  `First`/`Take`/`Last` do). The repository code of this project is written
  against that semantics — `GetUserByEmail` compensates with a
  `user.ID == 0` guard, the other two lookups do not.
- Constraints installed by `AutoMigrate` from the gorm struct tags are part of
  the store model: `users.username` and `users.email` are unique,
  `products.price` has `CHECK (price > 0)`, and `products.user_id` references
  `users.id`.
- bcrypt is idealised as a deterministic injective one-way function:
  `GenerateFromPassword` prefixes the plaintext, `CompareHashAndPassword`
  succeeds exactly when the stored hash is the hash of the offered plaintext.
- HMAC-SHA256 signing is idealised as a perfect MAC: a signature is the pair
  of the signing key and the signed claim set, so two signatures agree exactly
  when both key and claims agree.
-/

namespace Gotemplate

/-- `internal/models` `User` (gorm.Model fields reduced to the identifier;
timestamps play no role in any claim). The `password` field stores the bcrypt
hash, never the plaintext. -/
structure User where
  id : Nat
  username : String
  email : String
  password : String
  deriving Repr, DecidableEq

/-- The zero value of `models.User`, which a GORM `Scan` with zero result rows
leaves behind. -/
def zeroUser : User :=
  { id := 0, username := "", email := "", password := "" }

/-- `internal/models` `Product` (gorm.Model reduced to the identifier). -/
structure Product where
  id : Nat
  name : String
  description : String
  price : ℚ
  userId : Nat
  deriving Repr, DecidableEq

/-- The zero value of `models.Product`, left behind by a `Scan` with zero
result rows. -/
def zeroProduct : Product :=
  { id := 0, name := "", description := "", price := 0, userId := 0 }

/-- `internal/models` `RegisterRequest`. -/
structure RegisterRequest where
  username : String
  email : String
  password : String
  deriving Repr, DecidableEq

/-- The gin binding tags of `RegisterRequest`
(`username: required`, `email: required,email`, `password: required,min=6`).
The `email` format tag is abstracted to nonemptiness; no claim depends on the
exact address grammar. -/
def RegisterRequest.bindCheck (r : RegisterRequest) : Bool :=
  r.username != "" && r.email != "" && decide (6 ≤ r.password.length)

/-- `internal/models` `LoginRequest`. -/
structure LoginRequest where
  email : String
  password : String
  deriving Repr, DecidableEq

/-- `internal/models` `AddProductRequest`. -/
structure AddProductRequest where
  name : String
  description : String
  price : ℚ
  deriving Repr, DecidableEq

/-- The gin binding tags of `AddProductRequest`
(`name: required`, `price: required,gt=0`; a zero float also fails
`required`). -/
def AddProductRequest.bindCheck (r : AddProductRequest) : Bool :=
  r.name != "" && decide (0 < r.price)

/-- `internal/models` `UpdateProductRequest` (all fields optional; the zero
value of an absent JSON field survives binding). -/
structure UpdateProductRequest where
  name : String
  description : String
  price : ℚ
  deriving Repr, DecidableEq

/-- The relational store: the two tables plus the serial-column counters that
`RETURNING id` reads back. A freshly migrated database is
`{ users := [], products := [], nextUserId := 1, nextProductId := 1 }`. -/
structure DB where
  users : List User
  products : List Product
  nextUserId : Nat
  nextProductId : Nat
  deriving Repr, DecidableEq

/-- The empty, freshly migrated database. -/
def DB.empty : DB :=
  { users := [], products := [], nextUserId := 1, nextProductId := 1 }

/-- Repository-level failures (`result.Error != nil`, `RowsAffected == 0`,
and the constraint violations Postgres raises on the migrated schema). -/
inductive RepoError where
  /-- `GetUserByEmail` guard `result.Error != nil || user.ID == 0` fired: with
  a healthy connection `result.Error` is nil, so this is the `user.ID == 0`
  case, reported as `database error retrieving user by email`. -/
  | userEmailNotFound
  /-- Unique-constraint violation on `users.username` or `users.email`
  surfacing through `CreateUser`. -/
  | userUniqueViolation
  /-- `CHECK (price > 0)` or `products.user_id` foreign-key violation
  surfacing through `AddProduct`. -/
  | productConstraintViolation
  /-- `UpdateProduct`: `result.RowsAffected == 0`
  (`product with ID %d not found for update`). -/
  | updateRowsAffectedZero
  /-- `UpdateProduct`: `CHECK (price > 0)` violation on the updated row. -/
  | updateConstraintViolation
  /-- `DeleteProduct`: `result.RowsAffected == 0`
  (`product with ID %d not found for deletion`). -/
  | deleteRowsAffectedZero
  deriving Repr, DecidableEq

namespace Repository

/-- `user_repository.go` `CreateUser`: raw
`INSERT INTO users (...) VALUES (...) RETURNING id`, scanning the new serial
identifier back into `user.ID`. The migrated schema makes `username` and
`email` unique, so an insert that collides with a stored row fails and
changes nothing. -/
def CreateUser (db : DB) (username email password : String) :
    Except RepoError (User × DB) :=
  if db.users.any (fun u => u.username == username || u.email == email) then
    .error .userUniqueViolation
  else
    let u : User :=
      { id := db.nextUserId, username := username, email := email,
        password := password }
    .ok (u, { db with users := db.users ++ [u],
                      nextUserId := db.nextUserId + 1 })

/-- `user_repository.go` `GetUserByEmail`: raw
`SELECT ... FROM users WHERE email = ?` scanned into a `User`. A miss leaves
the zero value with a nil `result.Error`, so the guard
`result.Error != nil || user.ID == 0` reduces to `user.ID == 0`; inside it,
`result.Error == gorm.ErrRecordNotFound` is false (the error is nil), so the
function falls through to the generic error return. -/
def GetUserByEmail (db : DB) (email : String) : Except RepoError User :=
  let user := (db.users.find? (fun u => u.email == email)).getD zeroUser
  if user.id == 0 then .error .userEmailNotFound
  else .ok user

/-- `user_repository.go` `GetUserByID`: raw
`SELECT ... FROM users WHERE id = ?` scanned into a `User`. There is no
`user.ID == 0` guard here: a miss leaves the zero value and `result.Error`
nil, so the function returns the zero-valued user with no error (the
`gorm.ErrRecordNotFound` branch is unreachable for `Scan`). -/
def GetUserByID (db : DB) (id : Nat) : Except RepoError User :=
  .ok ((db.users.find? (fun u => u.id == id)).getD zeroUser)

/-- `product_repository.go` `AddProduct`: raw
`INSERT INTO products (...) RETURNING id`. The migrated schema enforces
`CHECK (price > 0)` and the `user_id` foreign key, so the insert fails (and
stores nothing) when the price is not strictly positive or the owner does not
exist. -/
def AddProduct (db : DB) (p : Product) : Except RepoError (Product × DB) :=
  if p.price ≤ 0 ∨ ¬ db.users.any (fun u => u.id == p.userId) then
    .error .productConstraintViolation
  else
    let created := { p with id := db.nextProductId }
    .ok (created, { db with products := db.products ++ [created],
                            nextProductId := db.nextProductId + 1 })

/-- `product_repository.go` `GetProductByID`: raw
`SELECT ... FROM products WHERE id = ?` scanned into a `Product`. As with
`GetUserByID`, a miss leaves the zero value with a nil `result.Error`, and
there is no `ID == 0` guard, so the zero-valued product is returned with no
error. -/
def GetProductByID (db : DB) (id : Nat) : Except RepoError Product :=
  .ok ((db.products.find? (fun p => p.id == id)).getD zeroProduct)

/-- `product_repository.go` `UpdateProduct`: raw
`UPDATE products SET name = ?, description = ?, price = ?, updated_at = ?
WHERE id = ?`. The `SET` list does not include `user_id`: ownership is never
written. With a matching row, a non-positive new price violates
`CHECK (price > 0)` (`result.Error != nil`); with no matching row the update
affects zero rows and the `RowsAffected == 0` branch fires. -/
def UpdateProduct (db : DB) (p : Product) : Except RepoError DB :=
  if db.products.any (fun q => q.id == p.id) then
    if p.price ≤ 0 then .error .updateConstraintViolation
    else
      .ok { db with
              products := db.products.map (fun q =>
                if q.id == p.id then
                  { q with name := p.name, description := p.description,
                           price := p.price }
                else q) }
  else .error .updateRowsAffectedZero

/-- `product_repository.go` `DeleteProduct`: raw
`DELETE FROM products WHERE id = ?` (hard delete); the
`RowsAffected == 0` branch fires when no row matched. -/
def DeleteProduct (db : DB) (id : Nat) : Except RepoError DB :=
  if db.products.any (fun q => q.id == id) then
    .ok { db with products := db.products.filter (fun q => ¬ q.id == id) }
  else .error .deleteRowsAffectedZero

end Repository

/-! ## Token manager (`pkg/auth`, golang-jwt/jwt v5) -/

/-- JWT signing algorithms relevant to the model: the HMAC family that
`jwt.SigningMethodHMAC` covers, plus representatives of the non-HMAC methods
an attacker could put in a token header. -/
inductive Alg where
  | HS256
  | HS384
  | HS512
  | RS256
  | ES256
  deriving Repr, DecidableEq

/-- Membership in the HMAC family: the type assertion
`token.Method.(*jwt.SigningMethodHMAC)` in the key function. -/
def Alg.isHMAC : Alg → Bool
  | .HS256 => true
  | .HS384 => true
  | .HS512 => true
  | _ => false

/-- `pkg/auth` `Claims`: the custom `UserID` claim plus the registered claims
set by `GenerateToken` (`ExpiresAt`, `IssuedAt`, `NotBefore`, `Issuer`,
`Subject`). -/
structure Claims where
  userID : String
  expiresAt : Int
  issuedAt : Int
  notBefore : Int
  issuer : String
  subject : String
  deriving Repr, DecidableEq

/-- Idealised HMAC tag over a claim set: a perfect MAC, represented by the
pair of the signing key and the signed content, so two tags agree exactly
when both the key and the claims agree. -/
def macSign (key : String) (c : Claims) : String × Claims :=
  (key, c)

/-- A structurally well-formed JWT after base64/JSON decoding: header
algorithm, claim set, and signature over the claims. -/
structure SignedToken where
  claims : Claims
  alg : Alg
  sig : String × Claims
  deriving Repr, DecidableEq

/-- A token string on the wire: either it decodes to a `SignedToken` or it is
malformed (`none`). -/
def TokenWire : Type := Option SignedToken

/-- `pkg/auth` `JWTManager`: symmetric secret and configured validity
duration, immutable after construction. -/
structure JWTManager where
  secretKey : String
  expiresInHour : Int
  deriving Repr, DecidableEq

/-- Failures of `ValidateToken`; every constructor is of the `TokenError`
kind of the specification. -/
inductive TokenError where
  /-- Malformed encoding: `jwt.ParseWithClaims` cannot decode the segments. -/
  | malformed
  /-- The key function rejected a non-HMAC method
  (`unexpected signing method`). -/
  | unexpectedSigningMethod
  /-- Signature verification against the secret failed. -/
  | signatureInvalid
  /-- Claims validation: the token is expired (`now < exp` fails; jwt v5
  checks `ExpiresAt` before `NotBefore`). -/
  | expired
  /-- Claims validation: the token is not valid yet (`nbf ≤ now` fails). -/
  | notValidYet
  deriving Repr, DecidableEq

/-- `pkg/auth` `GenerateToken`: builds the claim set
`{UserID = userID, ExpiresAt = now + expiresInHour, IssuedAt = now,
NotBefore = now, Issuer = "*", Subject = userID}` and signs it with HS256
under the manager's secret. Signing a marshallable claim set never fails, so
the Go error return is dead on every modelled path. -/
def GenerateToken (jm : JWTManager) (now : Int) (userID : String) :
    SignedToken :=
  let claims : Claims :=
    { userID := userID
      expiresAt := now + jm.expiresInHour
      issuedAt := now
      notBefore := now
      issuer := "*"
      subject := userID }
  { claims := claims, alg := .HS256, sig := macSign jm.secretKey claims }

/-- `pkg/auth` `ValidateToken`, following the jwt v5 `ParseWithClaims`
pipeline: decode (fails on malformed input), key function (rejects any
non-HMAC method), signature verification against the secret, then claims
validation with zero leeway — expiry requires `now < exp` (a validation at
the exact expiry instant is expired), not-before requires `nbf ≤ now`;
`IssuedAt` is not verified by the default validator. On success the parsed
claim set is returned. -/
def ValidateToken (jm : JWTManager) (now : Int) (t : TokenWire) :
    Except TokenError Claims :=
  match t with
  | none => .error .malformed
  | some st =>
    if ¬ st.alg.isHMAC then .error .unexpectedSigningMethod
    else if st.sig ≠ macSign jm.secretKey st.claims then
      .error .signatureInvalid
    else if ¬ now < st.claims.expiresAt then .error .expired
    else if ¬ st.claims.notBefore ≤ now then .error .notValidYet
    else .ok st.claims

/-! ## Credential hashing (`golang.org/x/crypto/bcrypt`, idealised) -/

/-- Idealised `bcrypt.GenerateFromPassword`: a deterministic injective
one-way transform (the real function salts; determinism is sound here because
the code only ever compares a stored hash against a fresh plaintext through
`CompareHashAndPassword`, never hash against hash). -/
def bcryptGenerateFromPassword (plaintext : String) : String :=
  "$2a$10$" ++ plaintext

/-- Idealised `bcrypt.CompareHashAndPassword`: succeeds exactly when the
stored hash is the hash of the offered plaintext. -/
def bcryptCompareHashAndPassword (hash plaintext : String) : Bool :=
  hash == bcryptGenerateFromPassword plaintext

/-! ## Service layer (`internal/service`) -/

/-- The distinct error values the two services construct; one constructor per
`errors.New`/`fmt.Errorf` site, so two service failures are equal exactly
when the caller-visible error is the same. -/
inductive ServiceError where
  /-- `RegisterUser`: `user with this email already exists`. -/
  | emailExists
  /-- `RegisterUser`: `failed to register user: %w` (repository insert
  failed). -/
  | registerFailed (e : RepoError)
  /-- `LoginUser`: `invalid credentials` — the one generic error used both
  for a failed lookup and for a failed password comparison. -/
  | invalidCredentials
  /-- `GetUserProfile`: `user not found: %w`. -/
  | userNotFound (e : RepoError)
  /-- `AddProduct`: `failed to add product: %w`. -/
  | addProductFailed (e : RepoError)
  /-- `GetProduct`: `product not found: %w`. -/
  | productNotFound (e : RepoError)
  /-- `UpdateProduct` fetch failure: `product not found: %w`. -/
  | updateTargetNotFound (e : RepoError)
  /-- `UpdateProduct`: `you are not authorized to update this product`. -/
  | notAuthorizedUpdate
  /-- `UpdateProduct`: `failed to update product: %w`. -/
  | updateFailed (e : RepoError)
  /-- `DeleteProduct` fetch failure: `product not found: %w`. -/
  | deleteTargetNotFound (e : RepoError)
  /-- `DeleteProduct`: `you are not authorized to delete this product`. -/
  | notAuthorizedDelete
  /-- `DeleteProduct`: `failed to delete product: %w`. -/
  | deleteFailed (e : RepoError)
  deriving Repr, DecidableEq

/-- The error kinds of specification section 7. -/
inductive ErrKind where
  | hashingError
  | tokenError
  | conflict
  | invalidCredentials
  | notFound
  | forbidden
  | internalError
  deriving Repr, DecidableEq

/-- Classification of each service error site into the specification's error
kinds (the classification the handler layer applies when translating to
transport status codes). -/
def ServiceError.kind : ServiceError → ErrKind
  | .emailExists => .conflict
  | .registerFailed _ => .internalError
  | .invalidCredentials => .invalidCredentials
  | .userNotFound _ => .notFound
  | .addProductFailed _ => .internalError
  | .productNotFound _ => .notFound
  | .updateTargetNotFound _ => .notFound
  | .notAuthorizedUpdate => .forbidden
  | .updateFailed _ => .internalError
  | .deleteTargetNotFound _ => .notFound
  | .notAuthorizedDelete => .forbidden
  | .deleteFailed _ => .internalError

/-- `internal/models` `LoginResponse`, carrying the issued token. -/
structure LoginResponse where
  token : SignedToken
  deriving Repr, DecidableEq

namespace Service

/-- `user_service.go` `RegisterUser`: looks the email up; if the lookup
succeeded with a non-nil user (`err == nil && existingUser != nil`) the
registration is refused before anything is written; otherwise the password is
bcrypt-hashed and the new user inserted (the repository scans the new serial
identifier into `user.ID`). -/
def RegisterUser (db : DB) (req : RegisterRequest) :
    Except ServiceError (User × DB) :=
  match Repository.GetUserByEmail db req.email with
  | .ok _ => .error .emailExists
  | .error _ =>
    let hashed := bcryptGenerateFromPassword req.password
    match Repository.CreateUser db req.username req.email hashed with
    | .error e => .error (.registerFailed e)
    | .ok res => .ok res

/-- `user_service.go` `LoginUser`: looks the email up and compares the bcrypt
hash; both failure modes return the identical generic `invalid credentials`
error. On success a token is issued over `fmt.Sprintf("%d", user.ID)` — the
decimal string form of the account identifier. -/
def LoginUser (db : DB) (jm : JWTManager) (now : Int) (req : LoginRequest) :
    Except ServiceError LoginResponse :=
  match Repository.GetUserByEmail db req.email with
  | .error _ => .error .invalidCredentials
  | .ok user =>
    if ¬ bcryptCompareHashAndPassword user.password req.password then
      .error .invalidCredentials
    else
      .ok { token := GenerateToken jm now (toString user.id) }

/-- `user_service.go` `GetUserProfile`: fetches by identifier and wraps any
repository error as `user not found: %w`. -/
def GetUserProfile (db : DB) (userID : Nat) : Except ServiceError User :=
  match Repository.GetUserByID db userID with
  | .error e => .error (.userNotFound e)
  | .ok user => .ok user

/-- `product_service.go` `AddProduct`: builds the product from the request
with the caller as owner and inserts it; the service itself performs no price
validation. -/
def AddProduct (db : DB) (userID : Nat) (req : AddProductRequest) :
    Except ServiceError (Product × DB) :=
  let product : Product :=
    { id := 0, name := req.name, description := req.description,
      price := req.price, userId := userID }
  match Repository.AddProduct db product with
  | .error e => .error (.addProductFailed e)
  | .ok res => .ok res

/-- `product_service.go` `GetProduct`: fetches by identifier and wraps any
repository error as `product not found: %w`. -/
def GetProduct (db : DB) (productID : Nat) : Except ServiceError Product :=
  match Repository.GetProductByID db productID with
  | .error e => .error (.productNotFound e)
  | .ok product => .ok product

/-- `product_service.go` `UpdateProduct`: fetches the product, refuses with
the authorization error unless the fetched product's owner equals the caller,
applies exactly the non-empty/non-zero request fields to the fetched record,
and writes it back. -/
def UpdateProduct (db : DB) (productID userID : Nat)
    (req : UpdateProductRequest) : Except ServiceError (Product × DB) :=
  match Repository.GetProductByID db productID with
  | .error e => .error (.updateTargetNotFound e)
  | .ok product =>
    if product.userId ≠ userID then .error .notAuthorizedUpdate
    else
      let product := if req.name != "" then { product with name := req.name }
        else product
      let product := if req.description != "" then
          { product with description := req.description }
        else product
      let product := if req.price != 0 then { product with price := req.price }
        else product
      match Repository.UpdateProduct db product with
      | .error e => .error (.updateFailed e)
      | .ok db1 => .ok (product, db1)

/-- `product_service.go` `DeleteProduct`: fetches the product, refuses with
the authorization error unless the fetched product's owner equals the caller,
then hard-deletes by identifier. -/
def DeleteProduct (db : DB) (productID userID : Nat) :
    Except ServiceError DB :=
  match Repository.GetProductByID db productID with
  | .error e => .error (.deleteTargetNotFound e)
  | .ok product =>
    if product.userId ≠ userID then .error .notAuthorizedDelete
    else
      match Repository.DeleteProduct db productID with
      | .error e => .error (.deleteFailed e)
      | .ok db1 => .ok db1

end Service

/-! ## Concrete sample data for witnesses -/

/-- A registered account: identifier 1, as the first `RETURNING id` of a fresh
database assigns. -/
def alice : User :=
  { id := 1, username := "alice", email := "alice@example.com",
    password := bcryptGenerateFromPassword "alice-password" }

/-- A stored product owned by `alice`, priced 9.99. -/
def widget : Product :=
  { id := 1, name := "widget", description := "", price := 999 / 100,
    userId := 1 }

/-- A database holding `alice` and her `widget`. -/
def sampleDB : DB :=
  { users := [alice], products := [widget], nextUserId := 2,
    nextProductId := 2 }

/-- A patch carrying only a price (the other fields keep their JSON zero
values). -/
def priceOnlyReq : UpdateProductRequest :=
  { name := "", description := "", price := 5 }

/-- `widget` after the price-only patch `priceOnlyReq`. -/
def widgetRepriced : Product :=
  { id := 1, name := "widget", description := "", price := 5, userId := 1 }

/-- `sampleDB` after `widget` is repriced to 5. -/
def sampleDBRepriced : DB :=
  { users := [alice], products := [widgetRepriced], nextUserId := 2,
    nextProductId := 2 }

/-- `sampleDB` after `widget` is deleted. -/
def sampleDBDeleted : DB :=
  { users := [alice], products := [], nextUserId := 2, nextProductId := 2 }

/-! ## Helper lemmas -/

/-- Searching a concatenation whose first part has no hit searches the second
part. -/
theorem find?_append_of_none {α : Type} (l1 l2 : List α) (p : α → Bool)
    (h : l1.find? p = none) : (l1 ++ l2).find? p = l2.find? p := by
  induction l1 with
  | nil => rfl
  | cons a t ih =>
    rw [List.cons_append]
    cases hpa : p a with
    | true => rw [List.find?_cons_of_pos _ hpa] at h; exact absurd h (by simp)
    | false =>
      rw [List.find?_cons_of_neg _ (by simp [hpa])] at h ⊢
      exact ih h

/-- A lookup over users none of which carries the searched email misses. -/
theorem find?_email_eq_none (l : List User) (email : String)
    (h : ∀ v ∈ l, v.email ≠ email) :
    l.find? (fun u => u.email == email) = none := by
  rw [List.find?_eq_none]
  intro v hv
  simp [h v hv]

/-- `GetUserByEmail` against a user list with no matching email takes its
error branch. -/
theorem getUserByEmail_absent (db : DB) (email : String)
    (h : ∀ v ∈ db.users, v.email ≠ email) :
    Repository.GetUserByEmail db email = .error .userEmailNotFound := by
  unfold Repository.GetUserByEmail
  rw [find?_email_eq_none db.users email h]
  rfl

/-- `ValidateToken` on a structurally well-formed token, with the match on
the decoding result reduced. -/
theorem validateToken_some_eq (jm : JWTManager) (now : Int)
    (st : SignedToken) :
    ValidateToken jm now (some st) =
      (if ¬ st.alg.isHMAC then .error .unexpectedSigningMethod
       else if st.sig ≠ macSign jm.secretKey st.claims then
         .error .signatureInvalid
       else if ¬ now < st.claims.expiresAt then .error .expired
       else if ¬ st.claims.notBefore ≤ now then .error .notValidYet
       else .ok st.claims) := rfl

/-- `GetProductByID` returns whatever product the row scan found. -/
theorem getProductByID_found (db : DB) (pid : Nat) (p : Product)
    (hfind : db.products.find? (fun q => q.id == pid) = some p) :
    Repository.GetProductByID db pid = .ok p := by
  unfold Repository.GetProductByID
  rw [hfind]
  rfl

/-! ## Claim theorems -/

/-- C1: for every stored product `p` and caller `c` different from the owner
recorded on `p`, `UpdateProduct` and `DeleteProduct` both fail with their
authorization errors — both of the `Forbidden` kind — returning before any
`UPDATE`/`DELETE` statement is issued, so the stored product still reads back
unchanged (in particular a stored price of 9.99 survives a foreign caller's
repricing attempt). -/
theorem updateDelete_foreign_caller_forbidden (db : DB) (pid c : Nat)
    (p : Product) (req : UpdateProductRequest)
    (hfind : db.products.find? (fun q => q.id == pid) = some p)
    (hown : p.userId ≠ c) :
    Service.UpdateProduct db pid c req = .error .notAuthorizedUpdate ∧
    ServiceError.kind .notAuthorizedUpdate = .forbidden ∧
    Service.DeleteProduct db pid c = .error .notAuthorizedDelete ∧
    ServiceError.kind .notAuthorizedDelete = .forbidden ∧
    Service.GetProduct db pid = .ok p := by
  have hga := getProductByID_found db pid p hfind
  refine ⟨?_, rfl, ?_, rfl, ?_⟩
  · simp [Service.UpdateProduct, hga, hown]
  · simp [Service.DeleteProduct, hga, hown]
  · simp [Service.GetProduct, hga]

/-- C1 witness: `alice` (account 1) owns the stored 9.99 `widget`; account 2's
attempt to reprice it to 19.99 and to delete it both fail with the
`Forbidden`-kind errors, and the stored product still reads back at 9.99. -/
theorem updateDelete_foreign_caller_forbidden_witness :
    (sampleDB.products.find? (fun q => q.id == 1) = some widget ∧
     widget.userId ≠ 2) ∧
    (Service.UpdateProduct sampleDB 1 2
        { name := "", description := "", price := 1999 / 100 } =
      .error .notAuthorizedUpdate ∧
    ServiceError.kind .notAuthorizedUpdate = .forbidden ∧
    Service.DeleteProduct sampleDB 1 2 = .error .notAuthorizedDelete ∧
    ServiceError.kind .notAuthorizedDelete = .forbidden ∧
    Service.GetProduct sampleDB 1 = .ok widget) :=
  ⟨⟨rfl, by decide⟩,
   updateDelete_foreign_caller_forbidden sampleDB 1 2 widget
     { name := "", description := "", price := 1999 / 100 } rfl (by decide)⟩

/-- C4 (code bug): on an identifier matching no stored record the lookups do
not fail — GORM `Raw().Scan()` leaves the destination zero-valued with a nil
error and neither `GetProductByID` nor `GetUserByID` guards against it — so
`GetProduct` and `GetUserProfile` return the zero-valued record with success,
and `DeleteProduct` followed by `GetProduct` on the same identifier also
succeeds with the zero-valued product instead of failing with `NotFound`. -/
theorem lookup_absent_returns_zero_value :
    Service.GetProduct DB.empty 42 = .ok zeroProduct ∧
    Service.GetUserProfile DB.empty 42 = .ok zeroUser ∧
    Service.DeleteProduct sampleDB 1 1 = .ok sampleDBDeleted ∧
    Service.GetProduct sampleDBDeleted 1 = .ok zeroProduct :=
  ⟨rfl, rfl, rfl, rfl⟩

/-- C5 (code bug): for a product identifier absent from the store the fetch
succeeds with the zero-valued product (owner 0), so for any caller other than
0 the ownership check fires and `UpdateProduct`/`DeleteProduct` fail with the
`Forbidden`-kind authorization errors, not `NotFound`; for caller 0 the
update instead reaches the repository and fails there with the
`RowsAffected == 0` error of the `internalError` kind. -/
theorem updateDelete_absent_product_is_forbidden :
    Service.UpdateProduct DB.empty 42 7
        { name := "x", description := "", price := 5 } =
      .error .notAuthorizedUpdate ∧
    ServiceError.kind .notAuthorizedUpdate = .forbidden ∧
    Service.DeleteProduct DB.empty 42 7 = .error .notAuthorizedDelete ∧
    ServiceError.kind .notAuthorizedDelete = .forbidden ∧
    Service.UpdateProduct DB.empty 42 0
        { name := "x", description := "", price := 5 } =
      .error (.updateFailed .updateRowsAffectedZero) ∧
    ServiceError.kind (.updateFailed .updateRowsAffectedZero) =
      .internalError :=
  ⟨rfl, rfl, rfl, rfl, rfl, rfl⟩

/-- C6: registering with an email some stored account already carries fails
with the `Conflict`-kind error; the service returns before calling
`CreateUser`, so nothing is inserted and the stored account set is
unchanged. -/
theorem register_duplicate_email_conflict (db : DB) (req : RegisterRequest)
    (u : User)
    (hfind : db.users.find? (fun v => v.email == req.email) = some u)
    (hid : u.id ≠ 0) :
    Service.RegisterUser db req = .error .emailExists ∧
    ServiceError.kind .emailExists = .conflict := by
  have hge : Repository.GetUserByEmail db req.email = .ok u := by
    unfold Repository.GetUserByEmail
    rw [hfind]
    simp [hid]
  exact ⟨by simp [Service.RegisterUser, hge], rfl⟩

/-- C6 witness: re-registering `alice`'s email on `sampleDB` fails with the
`Conflict`-kind error. -/
theorem register_duplicate_email_conflict_witness :
    (sampleDB.users.find?
        (fun v => v.email == "alice@example.com") = some alice ∧
     alice.id ≠ 0) ∧
    (Service.RegisterUser sampleDB
        { username := "alice2", email := "alice@example.com",
          password := "password2" } = .error .emailExists ∧
     ServiceError.kind .emailExists = .conflict) :=
  ⟨⟨rfl, by decide⟩,
   register_duplicate_email_conflict sampleDB
     { username := "alice2", email := "alice@example.com",
       password := "password2" } alice rfl (by decide)⟩

/-- C7: a login against a nonexistent email and a login against an existing
email with a wrong password produce one and the same error value — the single
generic `invalid credentials` error of the `InvalidCredentials` kind — so the
two failures are indistinguishable to the caller. -/
theorem login_failures_indistinguishable (db : DB) (jm : JWTManager)
    (now1 now2 : Int) (r1 r2 : LoginRequest) (u : User)
    (habsent : ∀ v ∈ db.users, v.email ≠ r1.email)
    (hfind : db.users.find? (fun v => v.email == r2.email) = some u)
    (hid : u.id ≠ 0)
    (hpw : u.password ≠ bcryptGenerateFromPassword r2.password) :
    Service.LoginUser db jm now1 r1 = .error .invalidCredentials ∧
    Service.LoginUser db jm now2 r2 = .error .invalidCredentials ∧
    Service.LoginUser db jm now1 r1 = Service.LoginUser db jm now2 r2 ∧
    ServiceError.kind .invalidCredentials = .invalidCredentials := by
  have h1 : Service.LoginUser db jm now1 r1 = .error .invalidCredentials := by
    simp [Service.LoginUser, getUserByEmail_absent db r1.email habsent]
  have hge : Repository.GetUserByEmail db r2.email = .ok u := by
    unfold Repository.GetUserByEmail
    rw [hfind]
    simp [hid]
  have h2 : Service.LoginUser db jm now2 r2 = .error .invalidCredentials := by
    simp [Service.LoginUser, hge, bcryptCompareHashAndPassword, hpw]
  exact ⟨h1, h2, by rw [h1, h2], rfl⟩

/-- C7 witness: on `sampleDB`, a login with an unknown email and a login with
`alice`'s email but a wrong password both fail with the identical
`InvalidCredentials`-kind error. -/
theorem login_failures_indistinguishable_witness :
    ((∀ v ∈ sampleDB.users, v.email ≠ "nobody@example.com") ∧
     sampleDB.users.find?
        (fun v => v.email == "alice@example.com") = some alice ∧
     alice.id ≠ 0 ∧
     alice.password ≠ bcryptGenerateFromPassword "wrong-password") ∧
    (Service.LoginUser sampleDB ⟨"secret", 24⟩ 0
        { email := "nobody@example.com", password := "p" } =
      .error .invalidCredentials ∧
    Service.LoginUser sampleDB ⟨"secret", 24⟩ 5
        { email := "alice@example.com", password := "wrong-password" } =
      .error .invalidCredentials ∧
    Service.LoginUser sampleDB ⟨"secret", 24⟩ 0
        { email := "nobody@example.com", password := "p" } =
      Service.LoginUser sampleDB ⟨"secret", 24⟩ 5
        { email := "alice@example.com", password := "wrong-password" } ∧
    ServiceError.kind .invalidCredentials = .invalidCredentials) :=
  ⟨⟨by decide, rfl, by decide, by decide⟩,
   login_failures_indistinguishable sampleDB ⟨"secret", 24⟩ 0 5
     { email := "nobody@example.com", password := "p" }
     { email := "alice@example.com", password := "wrong-password" } alice
     (by decide) rfl (by decide) (by decide)⟩

/-- C8: a creation request whose price is not strictly positive is rejected
with no record created: the gin binding tags (`required,gt=0`) refuse the
request before the service layer, and even a direct `AddProduct` call fails —
the insert violates the migrated `CHECK (price > 0)` constraint and returns
before anything is stored. -/
theorem addProduct_nonpositive_price_rejected (db : DB) (userID : Nat)
    (req : AddProductRequest) (hp : req.price ≤ 0) :
    AddProductRequest.bindCheck req = false ∧
    Service.AddProduct db userID req =
      .error (.addProductFailed .productConstraintViolation) := by
  constructor
  · unfold AddProductRequest.bindCheck
    have : ¬ (0 : ℚ) < req.price := not_lt.mpr hp
    simp [this]
  · simp [Service.AddProduct, Repository.AddProduct, hp]

/-- C8 witness: a request priced at -1 fails the binding check and a direct
`AddProduct` call with it fails with no record created. -/
theorem addProduct_nonpositive_price_rejected_witness :
    ((-1 : ℚ) ≤ 0 ∧
     AddProductRequest.bindCheck
        { name := "widget", description := "", price := -1 } = false ∧
     Service.AddProduct sampleDB 1
        { name := "widget", description := "", price := -1 } =
      .error (.addProductFailed .productConstraintViolation)) :=
  ⟨by norm_num,
   (addProduct_nonpositive_price_rejected sampleDB 1
      { name := "widget", description := "", price := -1 } (by norm_num)).1,
   (addProduct_nonpositive_price_rejected sampleDB 1
      { name := "widget", description := "", price := -1 } (by norm_num)).2⟩

/-- C9: when an update succeeds, the returned product takes exactly the
non-empty/non-zero request fields and keeps the fetched record's values for
the rest; its owner is unchanged, and the store is rewritten only at the
matching identifier, with a `SET` list that never touches `user_id` — so
ownership never transfers. -/
theorem update_partial_patch_frame (db : DB) (pid caller : Nat)
    (req : UpdateProductRequest) (p p1 : Product) (db1 : DB)
    (hfind : db.products.find? (fun q => q.id == pid) = some p)
    (hok : Service.UpdateProduct db pid caller req = .ok (p1, db1)) :
    p1.name = (if req.name != "" then req.name else p.name) ∧
    p1.description =
      (if req.description != "" then req.description else p.description) ∧
    p1.price = (if req.price != 0 then req.price else p.price) ∧
    p1.userId = p.userId ∧
    db1.users = db.users ∧
    db1.products = db.products.map (fun q =>
      if q.id == p.id then
        { q with name := p1.name, description := p1.description,
                 price := p1.price }
      else q) := by
  have hga := getProductByID_found db pid p hfind
  unfold Service.UpdateProduct at hok
  rw [hga] at hok
  dsimp only at hok
  by_cases hc : p.userId = caller
  · rw [if_neg (not_not_intro hc)] at hok
    unfold Repository.UpdateProduct at hok
    by_cases hn : (req.name != "") = true <;>
      by_cases hd : (req.description != "") = true <;>
        by_cases hpz : (req.price != 0) = true <;>
          (simp [hn, hd, hpz] at hok ⊢
           split at hok
           · simp at hok
           · rename_i xv dbv heq
             simp only [Except.ok.injEq, Prod.mk.injEq] at hok
             obtain ⟨hp1, hdb⟩ := hok
             subst hp1
             subst hdb
             split at heq
             · split at heq
               · simp at heq
               · simp only [Except.ok.injEq] at heq
                 subst heq
                 simp
             · simp at heq)
  · rw [if_pos hc] at hok
    exact absurd hok (by simp)

/-- C9 witness: `alice` reprices her `widget` with a price-only patch; the
name and description survive, the owner stays account 1, and only the matching
row changes. -/
theorem update_partial_patch_frame_witness :
    (sampleDB.products.find? (fun q => q.id == 1) = some widget ∧
     Service.UpdateProduct sampleDB 1 1 priceOnlyReq =
       .ok (widgetRepriced, sampleDBRepriced)) ∧
    (widgetRepriced.name =
      (if priceOnlyReq.name != "" then priceOnlyReq.name else widget.name) ∧
    widgetRepriced.description =
      (if priceOnlyReq.description != "" then priceOnlyReq.description
       else widget.description) ∧
    widgetRepriced.price =
      (if priceOnlyReq.price != 0 then priceOnlyReq.price
       else widget.price) ∧
    widgetRepriced.userId = widget.userId ∧
    sampleDBRepriced.users = sampleDB.users ∧
    sampleDBRepriced.products = sampleDB.products.map (fun q =>
      if q.id == widget.id then
        { q with name := widgetRepriced.name,
                 description := widgetRepriced.description,
                 price := widgetRepriced.price }
      else q)) :=
  ⟨⟨rfl, rfl⟩,
   update_partial_patch_frame sampleDB 1 1 priceOnlyReq widget
     widgetRepriced sampleDBRepriced rfl rfl⟩

/-- C10: against a user table holding no row with the searched email, the
scan completes without a driver error but leaves the zero value, and the
`user.ID == 0` guard turns that into an error return — so `RegisterUser`'s
duplicate check observes an error (and does not refuse the registration as a
duplicate) and `LoginUser`'s lookup observes an error (and fails with the
generic credentials error). -/
theorem getUserByEmail_miss_is_error (db : DB) (jm : JWTManager) (now : Int)
    (email pw : String) (h : ∀ v ∈ db.users, v.email ≠ email) :
    Repository.GetUserByEmail db email = .error .userEmailNotFound ∧
    (∀ req : RegisterRequest, req.email = email →
      Service.RegisterUser db req ≠ .error .emailExists) ∧
    Service.LoginUser db jm now { email := email, password := pw } =
      .error .invalidCredentials := by
  have hge := getUserByEmail_absent db email h
  refine ⟨hge, ?_, ?_⟩
  · intro req hreq
    unfold Service.RegisterUser
    rw [hreq, hge]
    cases hcu : Repository.CreateUser db req.username email
        (bcryptGenerateFromPassword req.password) with
    | error e => simp [hcu]
    | ok r => simp [hcu]
  · simp [Service.LoginUser, hge]

/-- C10 witness: `sampleDB` stores no account with the email
`nobody@example.com`; the repository lookup errors, registration with that
email is not refused as a duplicate, and login with it fails with the generic
credentials error. -/
theorem getUserByEmail_miss_is_error_witness :
    (∀ v ∈ sampleDB.users, v.email ≠ "nobody@example.com") ∧
    (Repository.GetUserByEmail sampleDB "nobody@example.com" =
      .error .userEmailNotFound ∧
    (∀ req : RegisterRequest, req.email = "nobody@example.com" →
      Service.RegisterUser sampleDB req ≠ .error .emailExists) ∧
    Service.LoginUser sampleDB ⟨"secret", 24⟩ 0
        { email := "nobody@example.com", password := "pw" } =
      .error .invalidCredentials) :=
  ⟨by decide,
   getUserByEmail_miss_is_error sampleDB ⟨"secret", 24⟩ 0
     "nobody@example.com" "pw" (by decide)⟩

/-- C2: registering a valid, fresh account and then logging in with the same
email and password succeeds and yields a token that validates (within its
validity window) to a claim set whose `UserID` — and `Subject` — is the
decimal string form of the identifier the registration assigned. -/
theorem register_login_token_roundtrip (db : DB) (jm : JWTManager)
    (now now1 : Int) (req : RegisterRequest)
    (_hvalid : req.bindCheck = true)
    (hemail : ∀ v ∈ db.users, v.email ≠ req.email)
    (huser : ∀ v ∈ db.users, v.username ≠ req.username)
    (hid : db.nextUserId ≠ 0)
    (hlo : now ≤ now1) (hhi : now1 < now + jm.expiresInHour) :
    ∃ u db2, Service.RegisterUser db req = .ok (u, db2) ∧
      ∃ resp, Service.LoginUser db2 jm now
          { email := req.email, password := req.password } = .ok resp ∧
        ∃ c, ValidateToken jm now1 (some resp.token) = .ok c ∧
          c.userID = toString u.id ∧ c.subject = toString u.id := by
  have hge := getUserByEmail_absent db req.email hemail
  have hany : db.users.any
      (fun u => u.username == req.username || u.email == req.email) =
        false := by
    rw [List.any_eq_false]
    intro v hv
    simp [huser v hv, hemail v hv]
  refine ⟨({ id := db.nextUserId, username := req.username,
             email := req.email,
             password := bcryptGenerateFromPassword req.password } : User),
          ({ db with
               users := db.users ++
                 [{ id := db.nextUserId, username := req.username,
                    email := req.email,
                    password := bcryptGenerateFromPassword req.password }],
               nextUserId := db.nextUserId + 1 } : DB), ?_, ?_⟩
  · unfold Service.RegisterUser
    rw [hge]
    unfold Repository.CreateUser
    simp [hany]
  · have hfind2 : ((db.users ++
        [({ id := db.nextUserId, username := req.username,
            email := req.email,
            password := bcryptGenerateFromPassword req.password } :
           User)]).find? (fun v => v.email == req.email)) =
        some ({ id := db.nextUserId, username := req.username,
                email := req.email,
                password := bcryptGenerateFromPassword req.password } :
              User) := by
      rw [find?_append_of_none _ _ _
        (find?_email_eq_none db.users req.email hemail)]
      simp [List.find?]
    refine ⟨{ token := GenerateToken jm now (toString db.nextUserId) },
            ?_, ?_⟩
    · unfold Service.LoginUser Repository.GetUserByEmail
      dsimp only
      rw [hfind2]
      simp [hid, bcryptCompareHashAndPassword]
    · refine ⟨(GenerateToken jm now (toString db.nextUserId)).claims,
              ?_, rfl, rfl⟩
      simp [ValidateToken, GenerateToken, Alg.isHMAC, macSign, hlo, hhi]

/-- C2 witness: on an empty database, registering `bob` and logging in with
his email and password yields a token that, validated 10 time units later
under a 24-unit validity, returns `UserID = "1"` — the decimal form of the
assigned identifier. -/
theorem register_login_token_roundtrip_witness :
    (RegisterRequest.bindCheck
        { username := "bob", email := "bob@example.com",
          password := "hunter22" } = true ∧
     (∀ v ∈ DB.empty.users, v.email ≠ "bob@example.com") ∧
     (∀ v ∈ DB.empty.users, v.username ≠ "bob") ∧
     DB.empty.nextUserId ≠ 0 ∧ (100 : Int) ≤ 110 ∧
     (110 : Int) < 100 + (24 : Int)) ∧
    (∃ u db2,
      Service.RegisterUser DB.empty
          { username := "bob", email := "bob@example.com",
            password := "hunter22" } = .ok (u, db2) ∧
      ∃ resp, Service.LoginUser db2 ⟨"test-secret", 24⟩ 100
          { email := "bob@example.com", password := "hunter22" } =
            .ok resp ∧
        ∃ c, ValidateToken ⟨"test-secret", 24⟩ 110 (some resp.token) =
            .ok c ∧
          c.userID = toString u.id ∧ c.subject = toString u.id) :=
  ⟨⟨by decide, by decide, by decide, by decide, by decide, by decide⟩,
   register_login_token_roundtrip DB.empty ⟨"test-secret", 24⟩ 100 110
     { username := "bob", email := "bob@example.com",
       password := "hunter22" }
     (by decide) (by decide) (by decide) (by decide) (by decide)
     (by decide)⟩

/-- C3: validation succeeds exactly on a well-formed token signed with an
HMAC-family algorithm under the configured secret whose window satisfies
`notBefore ≤ now` and `now < expiresAt`, and then returns the embedded claim
set; a freshly issued token with positive validity duration is valid
immediately, a token issued under a different secret fails as a signature
mismatch, a validation at or after the expiry instant fails as expired, and a
malformed token fails to parse — all failures being `TokenError` values. -/
theorem validateToken_characterization (jm : JWTManager) (uid : String)
    (now now1 : Int) (t : TokenWire) (hD : 0 < jm.expiresInHour) :
    ((∃ c, ValidateToken jm now1 t = .ok c) ↔
      ∃ st, t = some st ∧ st.alg.isHMAC = true ∧
        st.sig = macSign jm.secretKey st.claims ∧
        st.claims.notBefore ≤ now1 ∧ now1 < st.claims.expiresAt) ∧
    (∀ st c, t = some st → ValidateToken jm now1 t = .ok c →
      c = st.claims) ∧
    ValidateToken jm now (some (GenerateToken jm now uid)) =
      .ok (GenerateToken jm now uid).claims ∧
    (∀ s, s ≠ jm.secretKey → ∀ t2, ValidateToken jm t2
        (some (GenerateToken { jm with secretKey := s } now uid)) =
      .error .signatureInvalid) ∧
    (∀ t2, now + jm.expiresInHour ≤ t2 →
      ValidateToken jm t2 (some (GenerateToken jm now uid)) =
        .error .expired) ∧
    ValidateToken jm now1 none = .error .malformed := by
  refine ⟨⟨?_, ?_⟩, ?_, ?_, ?_, ?_, rfl⟩
  · rintro ⟨c, hc⟩
    cases t with
    | none => exact absurd hc (by simp [ValidateToken])
    | some st =>
      refine ⟨st, rfl, ?_⟩
      rw [validateToken_some_eq] at hc
      split_ifs at hc with h1 h2 h3 h4
      all_goals cases hc
      exact ⟨h1, not_ne_iff.mp h2, h4, h3⟩
  · rintro ⟨st, rfl, hAlg, hSig, hNbf, hExp⟩
    exact ⟨st.claims, by simp [ValidateToken, hAlg, hSig, hNbf, hExp]⟩
  · intro st c ht hc
    subst ht
    rw [validateToken_some_eq] at hc
    split_ifs at hc
    all_goals cases hc
    rfl
  · have hnow : now < now + jm.expiresInHour := by omega
    simp [ValidateToken, GenerateToken, Alg.isHMAC, macSign, hnow]
  · intro s hs t2
    simp [ValidateToken, GenerateToken, Alg.isHMAC, macSign, hs]
  · intro t2 ht2
    have hnl : ¬ t2 < now + jm.expiresInHour := by omega
    simp [ValidateToken, GenerateToken, Alg.isHMAC, macSign, hnl]

/-- C3 witness: with a 24-unit validity duration the hypothesis holds, and
the characterization applies — in particular a malformed token fails to
parse. -/
theorem validateToken_characterization_witness :
    (0 : Int) < 24 ∧
    ValidateToken ⟨"secret", 24⟩ 7 none = .error .malformed :=
  ⟨by decide,
   (validateToken_characterization ⟨"secret", 24⟩ "1" 0 7 none
     (by decide)).2.2.2.2.2⟩

end Gotemplate
